import Mathlib

/-!
Verification of the Personal-AI-Assistant repository.

The repository ships a React frontend (`src/frontend`) and an axios API
client (`src/services/api.js`). The backend orchestrator, the credential
lifecycle manager and the tool dispatcher described in the design document
are not part of the visible sources; where a property depends on them they
are modelled from the design document (each such definition says so in its
doc comment). Everything else is translated directly from the JavaScript
sources.
-/

/-! ## The shared axios client (`src/services/api.js`) -/

/-- An HTTP request configuration as seen by the axios request interceptor:
a list of header name/value pairs (axios mutates `config.headers`). -/
structure RequestConfig where
  headers : List (String × String)
deriving Repr, DecidableEq

/-- Set a header, overwriting an existing entry with the same name
(JavaScript `config.headers.Authorization = v` semantics). -/
def setHeader (hs : List (String × String)) (k v : String) : List (String × String) :=
  match hs with
  | [] => [(k, v)]
  | (k', v') :: rest => if k' = k then (k, v) :: rest else (k', v') :: setHeader rest k v

/-- Look up a header by name. -/
def getHeader (hs : List (String × String)) (k : String) : Option String :=
  match hs with
  | [] => none
  | (k', v') :: rest => if k' = k then some v' else getHeader rest k

/-- The request interceptor of `api.js` lines 15-26:
`const token = localStorage.getItem('token'); if (token) { config.headers.Authorization =
`Bearer ${token}` } return config;`. `localStorage.getItem` yields `null`
when no entry exists (modelled as `none`), and `if (token)` is JavaScript
truthiness: the empty string is falsy. -/
def requestInterceptor (store : Option String) (cfg : RequestConfig) : RequestConfig :=
  match store with
  | none => cfg
  | some token =>
      if token = "" then cfg
      else { cfg with headers := setHeader cfg.headers "Authorization" ("Bearer " ++ token) }

/-! ## The chat page (`src/frontend/src/pages/Chat.jsx`) -/

/-- Which chat endpoint a send used. -/
inductive ChatEndpoint
  | plain
  | tools
deriving Repr, DecidableEq

/-- The URL path behind each endpoint (`chatAPI.sendMessage` /
`chatAPI.sendMessageWithTools` in `api.js`). -/
def endpointPath : ChatEndpoint → String
  | .plain => "/chat/message"
  | .tools => "/chat/message/tools"

/-- JavaScript `String.prototype.trim`: strip whitespace from both ends,
written over the character list so that it evaluates structurally. -/
def jsTrim (s : String) : String :=
  ⟨(((s.data.dropWhile Char.isWhitespace).reverse.dropWhile Char.isWhitespace).reverse)⟩

/-- A displayed chat message (`{ id, role, content, created_at }`). -/
structure Msg where
  id : Nat
  role : String
  content : String
  createdAt : String
deriving Repr, DecidableEq

/-- The component state used by `handleSend`. -/
structure ChatState where
  messages : List Msg
  input : String
  loading : Bool
  error : String
  googleConnected : Bool
deriving Repr, DecidableEq

/-- Outcome of the awaited chat API call inside `handleSend`: either a
response `{ message_id, response }` or a rejection whose optional
`err.response?.data?.detail` is carried along. -/
inductive SendOutcome
  | success (messageId : Nat) (response : String)
  | failure (detail : Option String)
deriving Repr, DecidableEq

/-- `handleSend` of `Chat.jsx` (the Google-aware version, lines 355-393),
as a function of the component state, the values `Date.now()` /
`new Date().toISOString()` produce for the optimistic message and for the
assistant message, and the API call's outcome. Returns the final component
state together with the endpoint used (`none` when the guard
`if (!input.trim() || loading) return;` fires and no request is issued). -/
def handleSend (s : ChatState) (tempId : Nat) (nowIso nowIso2 : String)
    (outcome : SendOutcome) : ChatState × Option ChatEndpoint :=
  if jsTrim s.input = "" ∨ s.loading then (s, none)
  else
    let userMessage := jsTrim s.input
    let endpoint := if s.googleConnected then ChatEndpoint.tools else ChatEndpoint.plain
    let tempUserMsg : Msg := { id := tempId, role := "user", content := userMessage, createdAt := nowIso }
    let afterOptimistic := s.messages ++ [tempUserMsg]
    match outcome with
    | .success messageId response =>
        let assistantMsg : Msg :=
          { id := messageId, role := "assistant", content := response, createdAt := nowIso2 }
        ({ messages := afterOptimistic ++ [assistantMsg], input := "", loading := false,
           error := "", googleConnected := s.googleConnected }, some endpoint)
    | .failure detail =>
        let shown := match detail with
          | some d => if d = "" then "Failed to send message" else d
          | none => "Failed to send message"
        ({ messages := afterOptimistic.filter (fun m => ¬ m.id = tempId), input := "",
           loading := false, error := shown, googleConnected := s.googleConnected },
         some endpoint)

/-! ## The OAuth callback page (`src/frontend/src/pages/GoogleCallback.jsx`) -/

/-- JavaScript truthiness of `URLSearchParams.get`'s result: `null`
(absent) and the empty string are falsy. -/
def truthy : Option String → Bool
  | none => false
  | some s => ¬ s = ""

/-- Observable effects of `handleCallback`, in the order they happen. -/
inductive CbEffect
  | setStatusMsg (m : String)
  | setErrorMsg (m : String)
  | backendExchange (code : String)
  | storeToken (tok : String)
  | navigateTo (path : String)
deriving Repr, DecidableEq

/-- Result of the awaited `googleAPI.handleCallback(code)` backend call:
a response carrying `access_token`, or a rejection with an optional
`err.response?.data?.detail`. -/
inductive ExchangeOutcome
  | success (accessToken : String)
  | failure (detail : Option String)
deriving Repr, DecidableEq

/-- `handleCallback` of `GoogleCallback.jsx` lines 12-47, as a function of
the `error` and `code` query parameters and the backend call's outcome,
returning the sequence of effects it performs. Timers around `navigate`
are dropped; the navigation target is kept. -/
def handleCallback (errParam codeParam : Option String)
    (exchange : ExchangeOutcome) : List CbEffect :=
  if truthy errParam then
    [.setErrorMsg ("OAuth error: " ++ errParam.getD ""), .navigateTo "/login"]
  else if ¬ truthy codeParam then
    [.setErrorMsg "No authorization code received", .navigateTo "/login"]
  else
    let code := codeParam.getD ""
    match exchange with
    | .success tok =>
        [.setStatusMsg "Connecting your Google account...", .backendExchange code,
         .storeToken tok, .setStatusMsg "Success! Redirecting to chat...",
         .navigateTo "/chat"]
    | .failure detail =>
        let shown := match detail with
          | some d => if d = "" then "Failed to connect Google account" else d
          | none => "Failed to connect Google account"
        [.setStatusMsg "Connecting your Google account...", .backendExchange code,
         .setErrorMsg shown, .navigateTo "/login"]

/-! ## Credential lifecycle manager (modelled from the spec) -/

/-- Modelled from the spec: the three values `status(user)` may report
(design document section 4.1); the backend credential lifecycle manager is
not among the visible sources. -/
inductive CredStatus
  | connected
  | absent
  | revoked
deriving Repr, DecidableEq

/-- Modelled from the spec: a stored Credential (design document section 3)
with access token, refresh token, expiry timestamp and revoked flag; the
backend credential store is not among the visible sources. Scopes are
omitted as no claim mentions them. -/
structure Credential where
  accessToken : String
  refreshToken : String
  expiry : Nat
  revoked : Bool
deriving Repr, DecidableEq

/-- Modelled from the spec: the status of a user's credential slot —
`absent` when no credential exists, `revoked` when the revoked flag is set,
`connected` otherwise. -/
def credStatus : Option Credential → CredStatus
  | none => .absent
  | some c => if c.revoked then .revoked else .connected

/-- Modelled from the spec: `status(user)` "returns connected|absent|revoked
without triggering a refresh — a pure read for UI purposes"
(section 4.1; also `getToolAvailability` of section 6). Returned alongside
the credential state after the query and the number of upstream refresh
calls it issued, so that the frame condition is expressible. -/
def statusQuery (s : Option Credential) : CredStatus × Option Credential × Nat :=
  (credStatus s, s, 0)

/-- Modelled from the spec: what the upstream token endpoint would answer
a refresh attempt with (section 4.1 `getValidToken`). -/
inductive RefreshOutcome
  | ok (newToken : String) (newExpiry : Nat)
  | revokedErr
  | transientErr
deriving Repr, DecidableEq

/-- Modelled from the spec: the result of `getValidToken`. -/
inductive TokenResult
  | token (t : String)
  | credRevoked
  | credTransient
deriving Repr, DecidableEq

/-- Modelled from the spec (section 4.1): `getValidToken(user)` returns the
stored access token unchanged when its expiry is more than the safety
margin away; within the margin or past expiry it performs one refresh with
the stored refresh token. Refresh failure from a revoked/invalid refresh
token sets the revoked flag, clears the tokens and fails with
`CredentialRevoked`; transient network failure fails with
`CredentialTransientError`. The third component counts upstream refresh
calls issued. The backend lifecycle manager is not among the visible
sources. -/
def getValidToken (now margin : Nat) (upstream : RefreshOutcome)
    (c : Credential) : TokenResult × Credential × Nat :=
  if now + margin < c.expiry then
    (.token c.accessToken, c, 0)
  else
    match upstream with
    | .ok t e => (.token t, { c with accessToken := t, expiry := e }, 1)
    | .revokedErr =>
        (.credRevoked, { c with revoked := true, accessToken := "", refreshToken := "" }, 1)
    | .transientErr => (.credTransient, c, 1)

/-! ## Tool dispatcher (modelled from the spec) -/

/-- Modelled from the spec: the closed tool registry
(sections 3 and 4.2). -/
inductive ToolName
  | search_mail
  | send_mail
  | list_events
  | search_events
deriving Repr, DecidableEq

/-- Modelled from the spec: `send_mail`-class tools perform an irreversible
external action (section 4.2); the others are read-only. -/
def isMutatingTool : ToolName → Bool
  | .send_mail => true
  | _ => false

/-- All tools of the registry. -/
def allTools : List ToolName := [.search_mail, .send_mail, .list_events, .search_events]

/-- Modelled from the spec: `listAvailableTools(user)` returns the usable
schema subset — "empty if the user's credential status is not connected"
(section 4.2). -/
def listAvailableTools (s : Option Credential) : List ToolName :=
  if credStatus s = .connected then allTools else []

/-- Modelled from the spec: the normalized remote-service failure kinds
(section 4.2). -/
inductive RemoteError
  | rateLimited
  | unavailable
  | badRequest
  | authRejected
deriving Repr, DecidableEq

/-- Modelled from the spec: what the remote service answers one execution
attempt with. A dispatcher invocation consumes a prefix of a list of such
answers, one per remote execution. -/
inductive RemoteResult
  | ok (r : String)
  | err (e : RemoteError)
deriving Repr, DecidableEq

/-- Modelled from the spec: a dispatcher invocation's outcome
(section 4.2). -/
inductive DispatchResult
  | ok (r : String)
  | remoteErr (e : RemoteError)
  | credRevoked
  | credTransient
deriving Repr, DecidableEq

/-- Modelled from the spec (section 4.2, side-effects paragraph, and
scenario D): execute the remote call once; a mutating (`send_mail`-class)
tool is never retried internally; a read-only tool is retried once on a
transient failure (`rateLimited`/`unavailable`), and on `authRejected` it
is retried once after a forced refresh, a second `authRejected` counting
as `CredentialRevoked`. The second component counts remote executions.
An exhausted answer list stands for an unreachable service.
`retryOnceOn` is the single transparent retry of a read-only tool after a
transient failure `e`. -/
def retryOnceOn (e : RemoteError) (rest : List RemoteResult) : DispatchResult × Nat :=
  match rest with
  | [] => (.remoteErr e, 1)
  | .ok v :: _ => (.ok v, 2)
  | .err e2 :: _ => (.remoteErr e2, 2)

/-- See `retryOnceOn`: the dispatcher's remote-execution loop with its
per-tool retry policy. -/
def executeRemote (t : ToolName) (rs : List RemoteResult) : DispatchResult × Nat :=
  match rs with
  | [] => (.remoteErr .unavailable, 0)
  | .ok v :: _ => (.ok v, 1)
  | .err e :: rest =>
      if isMutatingTool t then
        match e with
        | .authRejected => (.credRevoked, 1)
        | .rateLimited => (.remoteErr .rateLimited, 1)
        | .unavailable => (.remoteErr .unavailable, 1)
        | .badRequest => (.remoteErr .badRequest, 1)
      else
        match e with
        | .badRequest => (.remoteErr .badRequest, 1)
        | .authRejected =>
            match rest with
            | [] => (.credRevoked, 1)
            | .ok v :: _ => (.ok v, 2)
            | .err .authRejected :: _ => (.credRevoked, 2)
            | .err .rateLimited :: _ => (.remoteErr .rateLimited, 2)
            | .err .unavailable :: _ => (.remoteErr .unavailable, 2)
            | .err .badRequest :: _ => (.remoteErr .badRequest, 2)
        | .rateLimited => retryOnceOn .rateLimited rest
        | .unavailable => retryOnceOn .unavailable rest

/-- Modelled from the spec (section 4.2): `invoke(user, toolCall)` obtains
a token via the lifecycle manager, propagating `CredentialRevoked` /
`CredentialTransientError` unchanged (with no remote execution), then
executes the remote call under the retry policy of `executeRemote`.
Returns the result, the credential after the invocation and the number of
remote executions performed. -/
def dispatcherInvoke (now margin : Nat) (upstream : RefreshOutcome)
    (c : Credential) (t : ToolName) (rs : List RemoteResult) :
    DispatchResult × Credential × Nat :=
  match getValidToken now margin upstream c with
  | (.credRevoked, c', _) => (.credRevoked, c', 0)
  | (.credTransient, c', _) => (.credTransient, c', 0)
  | (.token _, c', _) =>
      let (res, n) := executeRemote t rs
      (res, c', n)

/-! ## Agent orchestrator (modelled from the spec) -/

/-- Modelled from the spec: what the completion capability answers the
first call of a turn with (section 6) — a direct answer, a tool-call
request, or a failed call. -/
inductive CompletionOutcome
  | direct (text : String)
  | toolCall (t : ToolName)
  | failure
deriving Repr, DecidableEq

/-- Observable steps of one orchestrator turn, in order. `completionReq`
records whether the request carried a tool schema and whether it carried
the Google-unavailable system note. -/
inductive Event
  | persistUser (text : String)
  | completionReq (withSchema : Bool) (systemNote : Bool)
  | dispatchReq (t : ToolName)
  | persistAssistant (text : String)
deriving Repr, DecidableEq

/-- Modelled from the spec (section 4.3 step 7): the apologetic fallback
message citing the failure kind. -/
def apologyFor : DispatchResult → String
  | .remoteErr .rateLimited => "Sorry, the service is rate limited right now."
  | .remoteErr .unavailable => "Sorry, the service is unavailable right now."
  | .remoteErr .badRequest => "Sorry, the tool request was invalid."
  | .remoteErr .authRejected => "Sorry, the service rejected the request."
  | .credTransient => "Sorry, I could not reach Google right now."
  | _ => "Sorry, something went wrong."

/-- Everything one orchestrator turn depends on: the user's credential,
the clock and safety margin, what the upstream token endpoint would
answer, the user's message, the capability's first response, the remote
service's answers, the capability's tool-result follow-up answer and its
plain-mode fallback answer (`none` standing for a failed call). -/
structure TurnInput where
  cred : Option Credential
  now : Nat
  margin : Nat
  upstream : RefreshOutcome
  userText : String
  resp1 : CompletionOutcome
  remote : List RemoteResult
  followup : Option String
  fallback : Option String
deriving Repr, DecidableEq

/-- Modelled from the spec (section 4.3): a turn in plain-chat mode (no
usable credential, so `listAvailableTools` is empty and no schema is
offered). A tool-call request from the capability is then necessarily for
an unoffered tool: it is failed internally with a synthetic
`RemoteBadRequest` fed back to the capability as a tool error
(step 5), whose answer `followup` ends the turn. -/
def runPlainTurn (userText : String) (resp1 : CompletionOutcome)
    (followup : Option String) (cred : Option Credential) :
    List Event × Option String × Option Credential :=
  let ev1 := [Event.persistUser userText, Event.completionReq false false]
  match resp1 with
  | .failure => (ev1, none, cred)
  | .direct t => (ev1 ++ [Event.persistAssistant t], some t, cred)
  | .toolCall _ =>
      let ev2 := ev1 ++ [Event.completionReq false false]
      match followup with
      | some t => (ev2 ++ [Event.persistAssistant t], some t, cred)
      | none => (ev2, none, cred)

/-- Modelled from the spec (section 4.3): a turn with a connected
credential. The schema is offered; a requested tool (always among the
offered closed registry) is dispatched; on success the result is fed back
for a final answer; on `CredentialRevoked` the schema is dropped and the
completion re-run once with a system note that Google access is
unavailable (step 7); on other dispatcher failures an apologetic message
citing the failure kind is persisted. The user message is persisted
first, the assistant message only once a final answer exists. -/
def runToolTurn (now margin : Nat) (upstream : RefreshOutcome) (c : Credential)
    (userText : String) (resp1 : CompletionOutcome) (remote : List RemoteResult)
    (followup fallback : Option String) :
    List Event × Option String × Option Credential :=
  let ev1 := [Event.persistUser userText, Event.completionReq true false]
  match resp1 with
  | .failure => (ev1, none, some c)
  | .direct t => (ev1 ++ [Event.persistAssistant t], some t, some c)
  | .toolCall tn =>
      let ev2 := ev1 ++ [Event.dispatchReq tn]
      match dispatcherInvoke now margin upstream c tn remote with
      | (.ok _, c', _) =>
          let ev3 := ev2 ++ [Event.completionReq false false]
          match followup with
          | some t => (ev3 ++ [Event.persistAssistant t], some t, some c')
          | none => (ev3, none, some c')
      | (.credRevoked, c', _) =>
          let ev3 := ev2 ++ [Event.completionReq false true]
          match fallback with
          | some t => (ev3 ++ [Event.persistAssistant t], some t, some c')
          | none => (ev3, none, some c')
      | (.credTransient, c', _) =>
          let msg := apologyFor .credTransient
          (ev2 ++ [Event.persistAssistant msg], some msg, some c')
      | (.remoteErr e, c', _) =>
          let msg := apologyFor (.remoteErr e)
          (ev2 ++ [Event.persistAssistant msg], some msg, some c')

/-- Modelled from the spec (section 4.3): one orchestrator turn. A user
whose credential is absent or revoked gets the plain-chat flow (no tool
schema); a connected user gets the tool-enabled flow. Returns the event
trace, the final answer (`none` when the turn fails) and the credential
after the turn. -/
def runTurn (inp : TurnInput) : List Event × Option String × Option Credential :=
  match inp.cred with
  | none => runPlainTurn inp.userText inp.resp1 inp.followup none
  | some c =>
      if c.revoked then runPlainTurn inp.userText inp.resp1 inp.followup (some c)
      else runToolTurn inp.now inp.margin inp.upstream c inp.userText inp.resp1
             inp.remote inp.followup inp.fallback

/-- The (role, text) pairs a trace appends to the History, in order. -/
def persistedMessages (evs : List Event) : List (String × String) :=
  evs.filterMap fun e =>
    match e with
    | .persistUser t => some ("user", t)
    | .persistAssistant t => some ("assistant", t)
    | _ => none

/-- The schema flags of the completion requests of a trace, in order. -/
def schemaFlags (evs : List Event) : List Bool :=
  evs.filterMap fun e =>
    match e with
    | .completionReq w _ => some w
    | _ => none

/-- The tools dispatched in a trace, in order. -/
def dispatchedTools (evs : List Event) : List ToolName :=
  evs.filterMap fun e =>
    match e with
    | .dispatchReq t => some t
    | _ => none

/-! ## Helper lemmas -/

theorem getHeader_setHeader_self (hs : List (String × String)) (k v : String) :
    getHeader (setHeader hs k v) k = some v := by
  induction hs with
  | nil => simp [setHeader, getHeader]
  | cons p rest ih =>
      obtain ⟨k', v'⟩ := p
      by_cases h : k' = k
      · simp [setHeader, getHeader, h]
      · simp [setHeader, getHeader, h, ih]

theorem getHeader_setHeader_other (hs : List (String × String)) (k v k2 : String)
    (h : ¬ k2 = k) : getHeader (setHeader hs k v) k2 = getHeader hs k2 := by
  have h' : ¬ k = k2 := fun hh => h hh.symm
  induction hs with
  | nil => simp [setHeader, getHeader, h']
  | cons p rest ih =>
      obtain ⟨k', v'⟩ := p
      by_cases hk : k' = k
      · subst hk
        simp [setHeader, getHeader, h']
      · simp [setHeader, getHeader, hk, ih]

/-! ## Claims -/

/-- C8: whenever `handleSend` runs with an input that trims to the empty
string, or while a previous send is still loading, the early-return guard
fires: no chat API request is issued (no endpoint is used) and the
component state, the displayed message list included, is unchanged. -/
theorem c8_guard_blocks_send (s : ChatState) (tempId : Nat) (nowIso nowIso2 : String)
    (outcome : SendOutcome) (h : jsTrim s.input = "" ∨ s.loading = true) :
    handleSend s tempId nowIso nowIso2 outcome = (s, none) := by
  unfold handleSend
  rcases h with h | h <;> simp [h]

/-- Witness for C8 at a whitespace-only input. -/
theorem c8_guard_blocks_send_witness :
    handleSend { messages := [], input := "  ", loading := false, error := "",
                 googleConnected := true } 7 "t1" "t2" (.success 9 "hi") =
      ({ messages := [], input := "  ", loading := false, error := "",
         googleConnected := true }, none) :=
  c8_guard_blocks_send _ _ _ _ _ (Or.inl (by decide))

/-- C9: when the callback URL carries a truthy `error` parameter or lacks a
`code` parameter, `handleCallback` performs no backend exchange and stores
no token; it sets an error message and navigates to `/login`. Conversely a
backend exchange happens only when a truthy `code` is present and no
truthy `error` is present. -/
theorem c9_callback_guard (errParam codeParam : Option String) (exchange : ExchangeOutcome) :
    ((truthy errParam = true ∨ codeParam = none) →
      (∀ c, CbEffect.backendExchange c ∉ handleCallback errParam codeParam exchange) ∧
      (∀ t, CbEffect.storeToken t ∉ handleCallback errParam codeParam exchange) ∧
      (∃ m, CbEffect.setErrorMsg m ∈ handleCallback errParam codeParam exchange) ∧
      CbEffect.navigateTo "/login" ∈ handleCallback errParam codeParam exchange) ∧
    (∀ c, CbEffect.backendExchange c ∈ handleCallback errParam codeParam exchange →
      truthy errParam = false ∧ truthy codeParam = true) := by
  constructor
  · intro h
    by_cases he : truthy errParam = true
    · refine ⟨fun c => ?_, fun t => ?_,
        ⟨"OAuth error: " ++ errParam.getD "", ?_⟩, ?_⟩ <;> simp [handleCallback, he]
    · have hcode : truthy codeParam = false := by
        rcases h with h | h
        · exact absurd h he
        · simp [h, truthy]
      refine ⟨fun c => ?_, fun t => ?_,
        ⟨"No authorization code received", ?_⟩, ?_⟩ <;> simp [handleCallback, he, hcode]
  · intro c hc
    by_cases he : truthy errParam = true
    · simp [handleCallback, he] at hc
    · by_cases hcode : truthy codeParam = true
      · exact ⟨by simpa using he, hcode⟩
      · simp [handleCallback, he, hcode] at hc

/-- Witness for C9: an `access_denied` error with no code triggers no
exchange and a redirect to `/login`. -/
theorem c9_callback_guard_witness :
    (∀ c, CbEffect.backendExchange c ∉
        handleCallback (some "access_denied") none (.success "tok")) ∧
    CbEffect.navigateTo "/login" ∈
        handleCallback (some "access_denied") none (.success "tok") := by
  have h := c9_callback_guard (some "access_denied") none (.success "tok")
  have h1 := h.1 (Or.inr rfl)
  exact ⟨h1.1, h1.2.2.2⟩

/-- C10 counterexample: an existing but empty `token` entry in localStorage
falsifies the claim as stated — the entry exists, yet the interceptor adds
no Authorization header (JavaScript `if (token)` treats the empty string
as falsy) and returns the config unchanged. -/
theorem c10_interceptor_counterexample :
    (some "" : Option String).isSome = true ∧
    getHeader (requestInterceptor (some "") { headers := [] }).headers "Authorization" = none ∧
    requestInterceptor (some "") { headers := [] } = { headers := [] } := by
  exact ⟨rfl, rfl, rfl⟩

/-- C10 (amended): the request interceptor adds the header
`Authorization: Bearer <token>` exactly when a non-empty `token` entry
exists in localStorage, leaving every other header unchanged; when the
entry is missing or empty the config is returned unchanged. -/
theorem c10_interceptor_auth_header (store : Option String) (cfg : RequestConfig) :
    (∀ t, store = some t → ¬ t = "" →
      getHeader (requestInterceptor store cfg).headers "Authorization" =
          some ("Bearer " ++ t) ∧
      (∀ k, ¬ k = "Authorization" →
        getHeader (requestInterceptor store cfg).headers k = getHeader cfg.headers k)) ∧
    ((store = none ∨ store = some "") → requestInterceptor store cfg = cfg) := by
  constructor
  · intro t hs ht
    subst hs
    constructor
    · simp [requestInterceptor, ht, getHeader_setHeader_self]
    · intro k hk
      simp [requestInterceptor, ht, getHeader_setHeader_other _ _ _ _ hk]
  · intro h
    rcases h with h | h <;> subst h <;> simp [requestInterceptor]

/-- Witness for the amended C10 at a stored token `"abc"` and at an absent
entry. -/
theorem c10_interceptor_auth_header_witness :
    getHeader (requestInterceptor (some "abc") { headers := [("X-Req", "1")] }).headers
        "Authorization" = some "Bearer abc" ∧
    requestInterceptor none { headers := [("X-Req", "1")] } = { headers := [("X-Req", "1")] } := by
  have h1 := c10_interceptor_auth_header (some "abc") { headers := [("X-Req", "1")] }
  have h2 := c10_interceptor_auth_header (none : Option String) { headers := [("X-Req", "1")] }
  exact ⟨(h1.1 "abc" rfl (by decide)).1, h2.2 (Or.inl rfl)⟩

/-- C4: the status query returns one of `connected`, `absent`, `revoked`,
leaves the credential state exactly as it was, and issues zero upstream
refresh calls (a pure read). -/
theorem c4_status_pure_read (s : Option Credential) :
    ((statusQuery s).1 = .connected ∨ (statusQuery s).1 = .absent ∨
      (statusQuery s).1 = .revoked) ∧
    (statusQuery s).2.1 = s ∧ (statusQuery s).2.2 = 0 := by
  refine ⟨?_, rfl, rfl⟩
  show credStatus s = _ ∨ credStatus s = _ ∨ credStatus s = _
  rcases h : credStatus s with _ | _ | _
  · exact Or.inl rfl
  · exact Or.inr (Or.inl rfl)
  · exact Or.inr (Or.inr rfl)

/-- C5: `getValidToken` is idempotent within the safety margin — when the
stored token expires more than the margin in the future it is returned
unchanged with the credential untouched and zero upstream refresh calls,
and a second call still within the margin on the resulting credential adds
zero further refresh calls, whatever the upstream endpoint would have
answered. -/
theorem c5_getValidToken_idempotent (now now2 margin : Nat)
    (u u2 : RefreshOutcome) (c : Credential)
    (h : now + margin < c.expiry) (h2 : now2 + margin < c.expiry) :
    getValidToken now margin u c = (.token c.accessToken, c, 0) ∧
    (getValidToken now margin u c).2.2 +
      (getValidToken now2 margin u2 (getValidToken now margin u c).2.1).2.2 = 0 := by
  have e1 : getValidToken now margin u c = (.token c.accessToken, c, 0) := by
    unfold getValidToken
    simp [h]
  refine ⟨e1, ?_⟩
  rw [e1]
  unfold getValidToken
  simp [h2]

/-- Witness for C5: margin 60, expiry 1000, calls at times 0 and 30. -/
theorem c5_getValidToken_idempotent_witness :
    getValidToken 0 60 .transientErr
        { accessToken := "a", refreshToken := "r", expiry := 1000, revoked := false } =
      (.token "a", { accessToken := "a", refreshToken := "r", expiry := 1000,
                     revoked := false }, 0) ∧
    (getValidToken 0 60 .transientErr
        { accessToken := "a", refreshToken := "r", expiry := 1000, revoked := false }).2.2 +
      (getValidToken 30 60 .revokedErr
        ((getValidToken 0 60 .transientErr
          { accessToken := "a", refreshToken := "r", expiry := 1000,
            revoked := false }).2.1)).2.2 = 0 :=
  c5_getValidToken_idempotent 0 30 60 .transientErr .revokedErr _ (by decide) (by decide)

/-- Remote-execution bound for mutating tools: `executeRemote` never runs
a `send_mail`-class tool more than once, whatever the remote answers. -/
theorem executeRemote_mutating_le_one (t : ToolName) (rs : List RemoteResult)
    (hm : isMutatingTool t = true) : (executeRemote t rs).2 ≤ 1 := by
  match rs with
  | [] => simp [executeRemote]
  | .ok v :: rest => simp [executeRemote]
  | .err e :: rest =>
      cases e <;> simp [executeRemote, hm]

/-- C6: the Dispatcher executes a mutating (`send_mail`-class) tool at most
once per ToolCall — no silent retry — even though a read-only companion
such as `search_mail` is retried after a transient failure (two remote
executions in the same turn). -/
theorem c6_mutating_at_most_once (now margin : Nat) (u : RefreshOutcome)
    (c : Credential) (t : ToolName) (rs rs2 : List RemoteResult) (v : String)
    (hm : isMutatingTool t = true) :
    (dispatcherInvoke now margin u c t rs).2.2 ≤ 1 ∧
    executeRemote .search_mail (.err .rateLimited :: .ok v :: rs2) = (.ok v, 2) := by
  constructor
  · unfold dispatcherInvoke
    rcases hg : getValidToken now margin u c with ⟨tr, c', n⟩
    cases tr <;> simp [hg, executeRemote_mutating_le_one t rs hm]
  · rfl

/-- Witness for C6 at `send_mail` with a transiently failing remote. -/
theorem c6_mutating_at_most_once_witness :
    (dispatcherInvoke 0 60 (.ok "t" 500)
        { accessToken := "a", refreshToken := "r", expiry := 1000, revoked := false }
        .send_mail [.err .rateLimited, .ok "sent"]).2.2 ≤ 1 ∧
    executeRemote .search_mail (.err .rateLimited :: .ok "found" :: []) = (.ok "found", 2) :=
  c6_mutating_at_most_once 0 60 (.ok "t" 500) _ .send_mail _ _ "found" (by decide)

/-- C2: on every turn the user Message is the very first thing the
orchestrator persists — before any completion or tool step — and the
History receives exactly the user Message plus, exactly when a final
answer (direct or fallback) is produced, that answer as the assistant
Message; a failed turn leaves the user Message and no assistant
placeholder. -/
theorem c2_user_persisted_first (inp : TurnInput) :
    ((runTurn inp).1.head? = some (.persistUser inp.userText)) ∧
    persistedMessages (runTurn inp).1 =
      ("user", inp.userText) ::
        (match (runTurn inp).2.1 with
         | some t => [("assistant", t)]
         | none => []) := by
  obtain ⟨cred, now, margin, upstream, userText, resp1, remote, followup, fallback⟩ := inp
  cases cred with
  | none =>
      cases resp1 <;> cases followup <;>
        simp [runTurn, runPlainTurn, persistedMessages]
  | some c =>
      by_cases hrv : c.revoked
      · cases resp1 <;> cases followup <;>
          simp [runTurn, runPlainTurn, persistedMessages, hrv]
      · cases resp1 with
        | direct t => simp [runTurn, runToolTurn, persistedMessages, hrv]
        | failure => simp [runTurn, runToolTurn, persistedMessages, hrv]
        | toolCall tn =>
            simp only [runTurn, hrv, if_neg, Bool.not_eq_true, runToolTurn]
            rcases hd : dispatcherInvoke now margin upstream c tn remote with ⟨res, c', n⟩
            cases res <;> cases followup <;> cases fallback <;>
              simp [hd, hrv, persistedMessages]

/-- C7: when the Dispatcher fails with `CredentialRevoked` (here: the token
is within the safety margin and the upstream refresh answers that the
refresh token is revoked), the turn does not fail — the orchestrator
re-runs the completion once without the tool schema and with the
Google-unavailable system note, the fallback plain-chat answer is
persisted as the final answer, and the status reported for the user
afterwards is `revoked`. -/
theorem c7_revoked_falls_back (inp : TurnInput) (c : Credential) (tn : ToolName)
    (fb : String)
    (hc : inp.cred = some c) (hrv : c.revoked = false)
    (hresp : inp.resp1 = .toolCall tn)
    (hmargin : ¬ inp.now + inp.margin < c.expiry)
    (hup : inp.upstream = .revokedErr)
    (hfb : inp.fallback = some fb) :
    (runTurn inp).2.1 = some fb ∧
    Event.completionReq false true ∈ (runTurn inp).1 ∧
    Event.persistAssistant fb ∈ (runTurn inp).1 ∧
    credStatus (runTurn inp).2.2 = .revoked := by
  obtain ⟨cred, now, margin, upstream, userText, resp1, remote, followup, fallback⟩ := inp
  simp only at hc hrv hresp hmargin hup hfb
  subst hc hresp hup hfb
  have hd : dispatcherInvoke now margin .revokedErr c tn remote =
      (.credRevoked, { c with revoked := true, accessToken := "", refreshToken := "" }, 0) := by
    unfold dispatcherInvoke getValidToken
    simp [hmargin]
  simp [runTurn, runToolTurn, hrv, hd, credStatus, persistedMessages]

/-- Witness for C7: an expired token whose refresh is answered
`revokedErr`. -/
theorem c7_revoked_falls_back_witness :
    (runTurn ⟨some ⟨"a", "r", 50, false⟩, 100, 60, .revokedErr,
              "search my inbox for invoices", .toolCall .search_mail, [],
              none, some "Google access is unavailable."⟩).2.1 =
      some "Google access is unavailable." ∧
    credStatus (runTurn ⟨some ⟨"a", "r", 50, false⟩, 100, 60, .revokedErr,
              "search my inbox for invoices", .toolCall .search_mail, [],
              none, some "Google access is unavailable."⟩).2.2 = .revoked := by
  have h := c7_revoked_falls_back
    ⟨some ⟨"a", "r", 50, false⟩, 100, 60, .revokedErr,
     "search my inbox for invoices", .toolCall .search_mail, [],
     none, some "Google access is unavailable."⟩
    ⟨"a", "r", 50, false⟩ .search_mail "Google access is unavailable."
    rfl rfl rfl (by decide) rfl rfl
  exact ⟨h.1, h.2.2.2⟩

/-- C1: a chat turn uses the tool-enabled completion path exactly when the
user has a usable Google credential. Frontend: a non-guarded `handleSend`
hits `/chat/message/tools` exactly when `googleConnected` is true and
`/chat/message` exactly when it is false. Orchestrator: for a user whose
credential status is `absent`, `listAvailableTools` is empty and no
completion request of the turn ever carries a tool schema. -/
theorem c1_tools_path_iff_credential (s : ChatState) (tempId : Nat)
    (nowIso nowIso2 : String) (outcome : SendOutcome) (inp : TurnInput)
    (hsend : ¬ (jsTrim s.input = "" ∨ s.loading = true))
    (habsent : credStatus inp.cred = .absent) :
    ((handleSend s tempId nowIso nowIso2 outcome).2 = some .tools ↔
        s.googleConnected = true) ∧
    ((handleSend s tempId nowIso nowIso2 outcome).2 = some .plain ↔
        s.googleConnected = false) ∧
    listAvailableTools inp.cred = [] ∧
    (∀ b ∈ schemaFlags (runTurn inp).1, b = false) := by
  obtain ⟨cred, now, margin, upstream, userText, resp1, remote, followup, fallback⟩ := inp
  simp only at habsent
  cases cred with
  | some c =>
      exfalso
      by_cases hrv : c.revoked <;> simp [credStatus, hrv] at habsent
  | none =>
      refine ⟨?_, ?_, ?_, ?_⟩
      · unfold handleSend
        rw [if_neg hsend]
        cases outcome <;> cases hgc : s.googleConnected <;> simp [hgc]
      · unfold handleSend
        rw [if_neg hsend]
        cases outcome <;> cases hgc : s.googleConnected <;> simp [hgc]
      · simp [listAvailableTools, credStatus]
      · cases resp1 <;> cases followup <;>
          simp [runTurn, runPlainTurn, schemaFlags]

/-- Witness for C1 at a connected frontend state and an absent-credential
orchestrator turn. -/
theorem c1_tools_path_iff_credential_witness :
    ((handleSend ⟨[], "hello", false, "", true⟩ 3 "t1" "t2" (.success 4 "hi")).2 =
        some .tools ↔ True) ∧
    listAvailableTools (none : Option Credential) = [] := by
  have h := c1_tools_path_iff_credential ⟨[], "hello", false, "", true⟩ 3 "t1" "t2"
    (.success 4 "hi")
    ⟨none, 0, 60, .transientErr, "hello", .direct "hi", [], none, none⟩
    (by decide) rfl
  constructor
  · simpa using h.1
  · exact h.2.2.1

/-- C3: a successfully completed tool turn — connected user, the capability
requests a tool, the Dispatcher succeeds, the follow-up completion yields
the final answer — grows the History by exactly two Messages, the user
Message followed by the assistant Message; and on the frontend a
successful `handleSend` appends exactly the optimistic user message and
the assistant response to the displayed list. -/
theorem c3_history_grows_by_two (inp : TurnInput) (c : Credential) (tn : ToolName)
    (r ans : String) (s : ChatState) (tempId mid : Nat) (nowIso nowIso2 resp : String)
    (hc : inp.cred = some c) (hrv : c.revoked = false)
    (hresp : inp.resp1 = .toolCall tn)
    (hok : (dispatcherInvoke inp.now inp.margin inp.upstream c tn inp.remote).1 = .ok r)
    (hfu : inp.followup = some ans)
    (hsend : ¬ (jsTrim s.input = "" ∨ s.loading = true)) :
    persistedMessages (runTurn inp).1 =
      [("user", inp.userText), ("assistant", ans)] ∧
    (runTurn inp).2.1 = some ans ∧
    ((handleSend s tempId nowIso nowIso2 (.success mid resp)).1).messages =
      s.messages ++
        [{ id := tempId, role := "user", content := jsTrim s.input, createdAt := nowIso },
         { id := mid, role := "assistant", content := resp, createdAt := nowIso2 }] := by
  obtain ⟨cred, now, margin, upstream, userText, resp1, remote, followup, fallback⟩ := inp
  simp only at hc hrv hresp hok hfu
  subst hc hresp hfu
  refine ⟨?_, ?_, ?_⟩
  · rcases hd : dispatcherInvoke now margin upstream c tn remote with ⟨res, c', n⟩
    rw [hd] at hok
    simp only at hok
    subst hok
    simp [runTurn, runToolTurn, hrv, hd, persistedMessages]
  · rcases hd : dispatcherInvoke now margin upstream c tn remote with ⟨res, c', n⟩
    rw [hd] at hok
    simp only at hok
    subst hok
    simp [runTurn, runToolTurn, hrv, hd]
  · unfold handleSend
    rw [if_neg hsend]
    simp

/-- Witness for C3: scenario B — a connected user searching the inbox. -/
theorem c3_history_grows_by_two_witness :
    persistedMessages
      (runTurn ⟨some ⟨"at", "rt", 1000, false⟩, 0, 60, .transientErr,
                "search my inbox for invoices", .toolCall .search_mail,
                [.ok "found"], some "Here are your invoices.", none⟩).1 =
      [("user", "search my inbox for invoices"),
       ("assistant", "Here are your invoices.")] ∧
    ((handleSend ⟨[], "search my inbox for invoices", false, "", true⟩ 5 "t1" "t2"
        (.success 6 "Here are your invoices.")).1).messages =
      [] ++
        [{ id := 5, role := "user", content := jsTrim "search my inbox for invoices",
           createdAt := "t1" },
         { id := 6, role := "assistant", content := "Here are your invoices.",
           createdAt := "t2" }] := by
  have h := c3_history_grows_by_two
    ⟨some ⟨"at", "rt", 1000, false⟩, 0, 60, .transientErr,
     "search my inbox for invoices", .toolCall .search_mail,
     [.ok "found"], some "Here are your invoices.", none⟩
    ⟨"at", "rt", 1000, false⟩ .search_mail "found" "Here are your invoices."
    ⟨[], "search my inbox for invoices", false, "", true⟩ 5 6 "t1" "t2"
    "Here are your invoices."
    rfl rfl rfl (by decide) rfl (by decide)
  exact ⟨h.1, h.2.2⟩
